import Mathlib

/-!
Verification of the MicroBot BLE client (src/microbot/module) against its
natural-language specification.

The embedding below models the client module faithfully:
* outbound frames are the hex strings the code builds with `binascii.a2b_hex`
  (byte-for-byte frame equality is equality of these hex strings, since
  `a2b_hex` is injective on even-length hex strings);
* the notification decoder `classify` mirrors `notification_handler`'s
  byte-pattern dispatch on `b2a_hex(data)[4:40]`;
* session methods are state-transition functions over a `Session` record,
  with an event `trace` recording every transport interaction, plus a
  `Transport` record supplying the outcome of each connect/write;
* Python `try/except` blocks are modelled by threading the partial state of
  the protected region into the handler's continuation, exactly where the
  code catches.
-/

namespace MicroBot

/-- Low hex digits used by Python's `%x`/`hex` formatting (via `Nat.digitChar`,
which agrees with Python's lowercase hex digits on 0..15). -/
def hexDigitsCore : Nat → Nat → List Char → List Char
  | 0, _, acc => acc
  | fuel + 1, n, acc =>
    let d := Nat.digitChar (n % 16)
    if n / 16 = 0 then d :: acc
    else hexDigitsCore fuel (n / 16) (d :: acc)

/-- Python `"{:02x}".format(n)`: lowercase hex digits of `n`, zero-padded on
the left to a minimum width of 2. -/
def format02x (n : Nat) : String :=
  let ds := hexDigitsCore (n + 1) n []
  String.mk (if ds.length < 2 then '0' :: ds else ds)

/-- Python `n.to_bytes(4, "little").hex()` for `n < 2^32`: the four bytes of
`n`, least significant first, each as two hex characters. -/
def leBytes4Hex (n : Nat) : String :=
  format02x (n % 256) ++ format02x (n / 256 % 256) ++
    format02x (n / 256 / 256 % 256) ++ format02x (n / 256 / 256 / 256 % 256)

/-- Python `binascii.b2a_hex`: two lowercase hex characters per byte. -/
def b2a_hex : List Nat → List Char
  | [] => []
  | b :: bs => Nat.digitChar (b / 16 % 16) :: Nat.digitChar (b % 16) :: b2a_hex bs

/-- A run of `n` ASCII zero characters, as compared against in the
notification byte patterns. -/
def zeros (n : Nat) : List Char := List.replicate n '0'

/-- The three notification shapes distinguished by `notification_handler`. -/
inductive Notif where
  | deviceAck (bdaddr : List Char)
  | tokenDelivery (token : List Char)
  | unrecognized
deriving DecidableEq

/-- The decode step of `notification_handler`: `tmp = b2a_hex(data)[4:4+36]`,
then dispatch on the byte patterns of the two `if` guards; anything else is
only logged (diagnostic), i.e. unrecognized. -/
def classify (data : List Nat) : Notif :=
  let tmp := ((b2a_hex data).drop 4).take 36
  if tmp.take 6 = "0f0101".toList ∨ tmp.take 6 = "0f0102".toList then
    Notif.deviceAck ((tmp.drop 6).take 12)
  else if tmp.take 4 = "1fff".toList ∧ (tmp.drop 6).take 22 ≠ zeros 22 ∧
      (tmp.drop 28).take 8 = zeros 8 then
    Notif.tokenDelivery ((tmp.drop 4).take 32)
  else
    Notif.unrecognized

/- Outbound frame builders: each is the hex string the corresponding method
passes to `binascii.a2b_hex`, with the random transaction id abstracted as a
parameter `id`. -/

/-- `__setToken` (init = False) header frame `bar1`. -/
def setTokenHeader (id : String) : String :=
  id ++ "00010000000000fa0000070000000000decd"

/-- `__setToken` (init = False) value frame `bar2`, embedding `self._token`. -/
def setTokenValue (id token : String) : String := id ++ "0fff" ++ token

/-- `__initToken` header frame `bar1`. -/
def initHeader (id : String) : String :=
  id ++ "00010040e20100fa01000700000000000000"

/-- `__initToken` value frame `bar2`: filler `f` characters then the token. -/
def initValue (id token : String) : String :=
  id ++ "0fffffffffffffffffffffffffff" ++ token

/-- `getToken` header frame `bar1`. -/
def getTokenHeader (id : String) : String :=
  id ++ "00010040e20101fa01000000000000000000"

/-- `getToken` value frame `bar2`. -/
def getTokenValue (id : String) : String :=
  id ++ "0fffffffffffffffffff0000000000000000"

/-- `push_on` header frame `bar1`. -/
def pushOnHeader (id : String) : String :=
  id ++ "000100000008020000000a0000000000decd"

/-- `push_on` value frame `bar2`. -/
def pushOnValue (id : String) : String :=
  id ++ "0fffffffffff000000000000000000000000"

/-- `push_off` header frame `bar1` (duplicated literal in the source). -/
def pushOffHeader (id : String) : String :=
  id ++ "000100000008020000000a0000000000decd"

/-- `push_off` value frame `bar2` (duplicated literal in the source). -/
def pushOffValue (id : String) : String :=
  id ++ "0fffffffffff000000000000000000000000"

/-- `calibrate` mode header frame `bar1`. -/
def calibModeHeader (id : String) : String :=
  id ++ "000100000008030001000a0000000000decd"

/-- `calibrate` mode value frame `bar2`, embedding `self._mode`. -/
def calibModeValue (id : String) (mode : Nat) : String :=
  id ++ "0fff" ++ format02x mode ++ "000000" ++ "000000000000000000000000"

/-- `calibrate` depth header frame `bar3`. -/
def calibDepthHeader (id : String) : String :=
  id ++ "000100000008040001000a0000000000decd"

/-- `calibrate` depth value frame `bar4`, embedding `self._depth`. -/
def calibDepthValue (id : String) (depth : Nat) : String :=
  id ++ "0fff" ++ format02x depth ++ "000000" ++ "000000000000000000000000"

/-- `calibrate` duration header frame `bar5`. -/
def calibDurationHeader (id : String) : String :=
  id ++ "000100000008050001000a0000000000decd"

/-- `calibrate` duration value frame `bar6`, embedding `self._duration` as a
4-byte little-endian integer. -/
def calibDurationValue (id : String) (duration : Nat) : String :=
  id ++ "0fff" ++ leBytes4Hex duration ++ "000000000000000000000000"

/-- `setMode`: maps the mode string to the numeric code; an unrecognized
string silently leaves the previous value in place. -/
def setMode (mode : String) (prev : Nat) : Nat :=
  if mode = "normal" then 0
  else if mode = "invert" then 1
  else if mode = "toggle" then 2
  else prev

/- Session-level model. -/

/-- Observable transport interactions, in program order. A `write` event
records the frame, whether the session was connected when the write statement
ran, and whether the write succeeded (it fails both when `self._client` is
`None`, which raises `AttributeError` before reaching the transport, and when
the transport write itself raises). -/
inductive Ev where
  | connectAttempt (ok : Bool)
  | startNotify
  | stopNotify
  | write (frame : String) (connected : Bool) (ok : Bool)
  | sleep (ms : Nat)
  | disconnected
deriving DecidableEq

/-- The mutable state of a `MicroBotApiClient` instance, plus the event
trace. `client` is whether `self._client` is non-`None`; `connected` is the
transport's liveness answer; `token` is `self._token`; `tokenCallback` is
`self._token_callback`; `isOn` is `self._is_on` (`none` = Python `None`). -/
structure Session where
  client : Bool
  connected : Bool
  token : String
  tokenCallback : Option String
  isOn : Option Bool
  mode : Nat
  depth : Nat
  duration : Nat
  writeCount : Nat
  retry : Nat
  trace : List Ev
deriving DecidableEq

/-- The environment: whether `establish_connection` succeeds, and the outcome
of the n-th transport write of the session. -/
structure Transport where
  connectOk : Bool
  writeOk : Nat → Bool

/-- `is_connected`: `False` when there is no client, otherwise the transport's
answer; timeouts and transport errors also yield `False` (fails closed). -/
def is_connected (s : Session) : Bool := s.client && s.connected

/-- `self._client.write_gatt_char(CHR2A89, frame, response=True)`: when there
is no client the attribute access raises before any transport interaction;
otherwise the transport consumes one write outcome. Returns the state after
the statement and whether it succeeded (failure = an exception was raised). -/
def write_gatt_char (tr : Transport) (s : Session) (frame : String) :
    Session × Bool :=
  if s.client then
    let ok := tr.writeOk s.writeCount
    ({ s with writeCount := s.writeCount + 1,
              trace := s.trace ++ [Ev.write frame (is_connected s) ok] }, ok)
  else
    ({ s with trace := s.trace ++ [Ev.write frame (is_connected s) false] },
      false)

/-- `_do_connect`: skip when already connected; otherwise try
`establish_connection` (+ `start_notify` of the diagnostic handler), catching
every exception internally, so this never raises. -/
def do_connect (tr : Transport) (s : Session) : Session :=
  if is_connected s then s
  else
    let s1 := { s with trace := s.trace ++ [Ev.connectAttempt tr.connectOk] }
    if tr.connectOk then
      { s1 with client := true, connected := true,
                trace := s1.trace ++ [Ev.startNotify] }
    else s1

/-- `__setToken` with `init = False`: build both frames, then write them in
order; any exception is caught after the failing write, so this never
raises and the second write is skipped when the first fails. -/
def setTokenOp (tr : Transport) (s : Session) (id : String) : Session :=
  let bar1 := setTokenHeader id
  let bar2 := setTokenValue id s.token
  let w1 := write_gatt_char tr s bar1
  if w1.2 then (write_gatt_char tr w1.1 bar2).1 else w1.1

/-- `__initToken`: `start_notify` (raises when there is no client, caught),
then the two init frames in order; every exception is caught. -/
def initTokenOp (tr : Transport) (s : Session) (id : String) : Session :=
  if s.client then
    let s1 := { s with trace := s.trace ++ [Ev.startNotify] }
    let w1 := write_gatt_char tr s1 (initHeader id)
    if w1.2 then (write_gatt_char tr w1.1 (initValue id s.token)).1 else w1.1
  else s

/-- `__setToken`: dispatch on the `init` flag. -/
def setToken (tr : Transport) (s : Session) (init : Bool) (id : String) :
    Session :=
  if init then initTokenOp tr s id else setTokenOp tr s id

/-- `getToken`: the two get-token frames in order, every exception caught. -/
def getTokenOp (tr : Transport) (s : Session) (id : String) : Session :=
  let w1 := write_gatt_char tr s (getTokenHeader id)
  if w1.2 then (write_gatt_char tr w1.1 (getTokenValue id)).1 else w1.1

/-- State effect of `notification_handler` on one inbound payload: a
device-ack triggers `getToken` (with a fresh transaction id `id`); a
token-delivery stores the decoded token in `self._token_callback` and stops
notifications; anything else is only logged. -/
def notification_handler (tr : Transport) (s : Session) (id : String)
    (data : List Nat) : Session :=
  match classify data with
  | Notif.deviceAck _ => getTokenOp tr s id
  | Notif.tokenDelivery tok =>
      { s with tokenCallback := some (String.mk tok),
               trace := s.trace ++ [Ev.stopNotify] }
  | Notif.unrecognized => s

/-- One iteration of `connect`'s `while True` body: `_do_connect` then
`__setToken`. Both callees catch every exception internally, so the body
always returns normally; the `Except` layer is the loop's `except` branch,
kept to mirror the source's control flow. -/
def connectBody (tr : Transport) (s : Session) (init : Bool) (id : String) :
    Except Session Session :=
  Except.ok (setToken tr (do_connect tr s) init id)

/-- `connect`'s retry loop: on an exception from the body, stop when the
local counter is 0, otherwise sleep 500 ms, decrement and retry. -/
def connectLoop (tr : Transport) (init : Bool) (id : String) :
    Nat → Session → Session
  | retry, s =>
    match connectBody tr s init id with
    | Except.ok s1 => s1
    | Except.error s1 =>
      match retry with
      | 0 => s1
      | r + 1 =>
          connectLoop tr init id r
            { s1 with trace := s1.trace ++ [Ev.sleep 500] }

/-- `connect(init)`: run the retry loop with `retry = self._retry`. -/
def connect (tr : Transport) (s : Session) (init : Bool) (id : String) :
    Session :=
  connectLoop tr init id s.retry s

/-- `disconnect` / `_do_disconnect`: the `if self.is_connected():` guard tests
a coroutine object, which is always truthy, so `self._client.disconnect()` is
always attempted; it raises (and is caught) when there is no client. -/
def disconnectOp (s : Session) : Session :=
  if s.client then
    { s with connected := false, trace := s.trace ++ [Ev.disconnected] }
  else s

/-- `push_on`: connect if not connected (with `init=False`, transaction id
`idc`), then the two push frames; on success `is_on := True`, on any failure
`is_on := False`; always disconnect at the end. -/
def push_on (tr : Transport) (s : Session) (idc idp : String) : Session :=
  let s0 := if is_connected s then s else connect tr s false idc
  let w1 := write_gatt_char tr s0 (pushOnHeader idp)
  let s2 :=
    if w1.2 then
      let w2 := write_gatt_char tr w1.1 (pushOnValue idp)
      if w2.2 then { w2.1 with isOn := some true }
      else { w2.1 with isOn := some false }
    else { w1.1 with isOn := some false }
  disconnectOp s2

/-- `push_off`: identical to `push_on` except the `is_on` assignments are
swapped (`False` on success, `True` on failure). -/
def push_off (tr : Transport) (s : Session) (idc idp : String) : Session :=
  let s0 := if is_connected s then s else connect tr s false idc
  let w1 := write_gatt_char tr s0 (pushOffHeader idp)
  let s2 :=
    if w1.2 then
      let w2 := write_gatt_char tr w1.1 (pushOffValue idp)
      if w2.2 then { w2.1 with isOn := some false }
      else { w2.1 with isOn := some true }
    else { w1.1 with isOn := some true }
  disconnectOp s2

/-- The six calibrate frames `bar1..bar6`, all built (from the stored
profile) before the first write. -/
def calibrateFrames (id : String) (mode depth duration : Nat) : List String :=
  [calibModeHeader id, calibModeValue id mode,
   calibDepthHeader id, calibDepthValue id depth,
   calibDurationHeader id, calibDurationValue id duration]

/-- Write a list of frames in strict sequence; the first failing write raises
(caught by the caller), skipping the remaining frames. -/
def writeSeq (tr : Transport) : Session → List String → Session
  | s, [] => s
  | s, f :: fs =>
    let w := write_gatt_char tr s f
    if w.2 then writeSeq tr w.1 fs else w.1

/-- `calibrate(depth, duration, mode)`: connect if not connected, store the
profile via `setMode`/`setDepth`/`setDuration`, then send the six frames in
sequence; any failure aborts the rest and is caught. Does not disconnect and
never touches `is_on`. -/
def calibrate (tr : Transport) (s : Session) (idc id : String)
    (depth duration : Nat) (mode : String) : Session :=
  let s0 := if is_connected s then s else connect tr s false idc
  let s1 := { s0 with mode := setMode mode s0.mode, depth := depth,
                      duration := duration }
  writeSeq tr s1 (calibrateFrames id s1.mode s1.depth s1.duration)

/- Frame templates as the specification states them (section 6), for the
refinement claim C3. Parameter fields are abstract placeholders. -/

/-- Spec template: set-token header. -/
def specSetTokenHeader (id : String) : String :=
  id ++ "00010000000000fa0000070000000000decd"

/-- Spec template: set-token value, `id+"0fff"+token`. -/
def specSetTokenValue (id token : String) : String := id ++ "0fff" ++ token

/-- Spec template: init header. -/
def specInitHeader (id : String) : String :=
  id ++ "00010040e20100fa01000700000000000000"

/-- Spec template: init value, `id+"0fff"+filler+token` with an unknown
filler placeholder. -/
def specInitValue (id filler token : String) : String :=
  id ++ "0fff" ++ filler ++ token

/-- Spec template: get-token header. -/
def specGetTokenHeader (id : String) : String :=
  id ++ "00010040e20101fa01000000000000000000"

/-- Spec template: get-token value. -/
def specGetTokenValue (id : String) : String :=
  id ++ "0fffffffffffffffffff0000000000000000"

/-- Spec template: push header. -/
def specPushHeader (id : String) : String :=
  id ++ "000100000008020000000a0000000000decd"

/-- Spec template: push value. -/
def specPushValue (id : String) : String :=
  id ++ "0fffffffffff000000000000000000000000"

/-- Spec template: calibration header `id+"0001000000080"+digit+
"0001000a0000000000decd"` with digit 3, 4 or 5 for mode, depth, duration. -/
def specCalibHeader (id digit : String) : String :=
  id ++ "0001000000080" ++ digit ++ "0001000a0000000000decd"

/-- Spec template: calibration value `id+"0fff"+param+"000000"+zero-pad`,
zero-padded to the fixed 20-byte frame width. -/
def specCalibValue (id param : String) : String :=
  id ++ "0fff" ++ param ++ "000000" ++
    String.mk (List.replicate (26 - param.length) '0')

/- Concrete fixtures used by witnesses and counterexamples. -/

/-- A 32-hex-character token as supplied at construction. -/
def tokenA : String := "aaaaaaaaaaaaaaaaaaaaaaaaaaaaaaaa"

/-- A session that is already connected, with an empty trace. -/
def sConn : Session :=
  { client := true, connected := true, token := tokenA, tokenCallback := none,
    isOn := none, mode := 0, depth := 50, duration := 0, writeCount := 0,
    retry := 5, trace := [] }

/-- A freshly constructed session: no client, not connected. -/
def sFresh : Session :=
  { client := false, connected := false, token := tokenA,
    tokenCallback := none, isOn := none, mode := 0, depth := 50,
    duration := 0, writeCount := 0, retry := 5, trace := [] }

/-- A transport on which everything succeeds. -/
def trOk : Transport := { connectOk := true, writeOk := fun _ => true }

/-- A transport on which everything fails. -/
def trFail : Transport := { connectOk := false, writeOk := fun _ => false }

/-- A transport that connects but on which every write fails. -/
def trWriteFail : Transport := { connectOk := true, writeOk := fun _ => false }

/-- A token-delivery payload: 2-byte header, then bytes spelling
`1fff` + 24 `b` digits + 8 zero digits. -/
def data0 : List Nat :=
  [0, 0, 31, 255, 187, 187, 187, 187, 187, 187, 187, 187, 187, 187, 187, 187,
   0, 0, 0, 0]

/-- Number of write events in a trace. -/
def numWrites (t : List Ev) : Nat :=
  t.countP (fun e => match e with | Ev.write _ _ _ => true | _ => false)

/-- Number of connection attempts in a trace. -/
def numAttempts (t : List Ev) : Nat :=
  t.countP (fun e => match e with | Ev.connectAttempt _ => true | _ => false)

/-- Number of backoff sleeps in a trace. -/
def numSleeps (t : List Ev) : Nat :=
  t.countP (fun e => match e with | Ev.sleep _ => true | _ => false)

/- Helper lemmas. -/

theorem hexDigitsCore_small (fuel n : Nat) (acc : List Char) (hf : 0 < fuel)
    (h : n < 16) :
    hexDigitsCore fuel n acc = Nat.digitChar (n % 16) :: acc := by
  match fuel, hf with
  | f + 1, _ => simp [hexDigitsCore, Nat.div_eq_of_lt h]

theorem format02x_length (n : Nat) (h : n < 256) : (format02x n).length = 2 := by
  unfold format02x
  by_cases h16 : n < 16
  · rw [hexDigitsCore_small (n + 1) n [] (Nat.succ_pos n) h16]
    rfl
  · have h1 : 16 ≤ n := Nat.le_of_not_lt h16
    have hne : ¬ n / 16 = 0 := by
      have : 0 < n / 16 := Nat.div_pos h1 (by norm_num)
      omega
    have hlt : n / 16 < 16 :=
      (Nat.div_lt_iff_lt_mul (show 0 < 16 by norm_num)).2
        (show n < 16 * 16 by omega)
    rw [show hexDigitsCore (n + 1) n [] =
          hexDigitsCore n (n / 16) [Nat.digitChar (n % 16)] from by
        simp [hexDigitsCore, hne]]
    rw [hexDigitsCore_small n (n / 16) _ (by omega) hlt]
    rfl

theorem leBytes4Hex_length (n : Nat) : (leBytes4Hex n).length = 8 := by
  unfold leBytes4Hex
  rw [String.length_append, String.length_append, String.length_append,
      format02x_length _ (Nat.mod_lt _ (by norm_num)),
      format02x_length _ (Nat.mod_lt _ (by norm_num)),
      format02x_length _ (Nat.mod_lt _ (by norm_num)),
      format02x_length _ (Nat.mod_lt _ (by norm_num))]

theorem b2a_hex_length (data : List Nat) :
    (b2a_hex data).length = 2 * data.length := by
  induction data with
  | nil => rfl
  | cons b bs ih => simp [b2a_hex, ih]; omega

theorem aux_calibModeValue_spec (id : String) (n : Nat) (h : n < 256) :
    calibModeValue id n = specCalibValue id (format02x n) := by
  unfold calibModeValue specCalibValue
  rw [format02x_length n h]
  congr 1

theorem aux_calibDepthValue_spec (id : String) (n : Nat) (h : n < 256) :
    calibDepthValue id n = specCalibValue id (format02x n) := by
  unfold calibDepthValue specCalibValue
  rw [format02x_length n h]
  congr 1

theorem aux_calibDurationValue_spec (id : String) (n : Nat) :
    calibDurationValue id n = specCalibValue id (leBytes4Hex n) := by
  unfold calibDurationValue specCalibValue
  rw [leBytes4Hex_length,
      String.append_assoc (id ++ "0fff" ++ leBytes4Hex n) "000000"]
  congr 1

/-- C3: for every supported command (push, the three calibrate pairs,
get-token, set-token, init) the emitted frames equal the section-6 spec
templates byte-for-byte, apart from the transaction-id prefix and the
parameter fields; in particular the push header and value match the quoted
literals. -/
theorem frames_match_spec_templates (id token : String)
    (mode depth duration : Nat) (hm : mode < 256) (hd : depth < 256) :
    pushOnHeader id = specPushHeader id ∧
    pushOnValue id = specPushValue id ∧
    pushOffHeader id = specPushHeader id ∧
    pushOffValue id = specPushValue id ∧
    getTokenHeader id = specGetTokenHeader id ∧
    getTokenValue id = specGetTokenValue id ∧
    setTokenHeader id = specSetTokenHeader id ∧
    setTokenValue id token = specSetTokenValue id token ∧
    initHeader id = specInitHeader id ∧
    initValue id token = specInitValue id "ffffffffffffffffffffffff" token ∧
    calibModeHeader id = specCalibHeader id "3" ∧
    calibDepthHeader id = specCalibHeader id "4" ∧
    calibDurationHeader id = specCalibHeader id "5" ∧
    calibModeValue id mode = specCalibValue id (format02x mode) ∧
    calibDepthValue id depth = specCalibValue id (format02x depth) ∧
    calibDurationValue id duration = specCalibValue id (leBytes4Hex duration) := by
  refine ⟨rfl, rfl, rfl, rfl, rfl, rfl, rfl, rfl, rfl, ?_, ?_, ?_, ?_,
    aux_calibModeValue_spec id mode hm, aux_calibDepthValue_spec id depth hd,
    aux_calibDurationValue_spec id duration⟩
  · unfold initValue specInitValue
    rw [String.append_assoc id "0fff" "ffffffffffffffffffffffff"]
    congr 2
  · unfold calibModeHeader specCalibHeader
    rw [String.append_assoc id "0001000000080" "3",
        String.append_assoc id ("0001000000080" ++ "3")
          "0001000a0000000000decd"]
    congr 1
  · unfold calibDepthHeader specCalibHeader
    rw [String.append_assoc id "0001000000080" "4",
        String.append_assoc id ("0001000000080" ++ "4")
          "0001000a0000000000decd"]
    congr 1
  · unfold calibDurationHeader specCalibHeader
    rw [String.append_assoc id "0001000000080" "5",
        String.append_assoc id ("0001000000080" ++ "5")
          "0001000a0000000000decd"]
    congr 1

/-- C3 witness: the templates coincide at a concrete transaction id, token
and calibration profile. -/
theorem frames_match_spec_templates_witness :
    (1 : Nat) < 256 ∧ (50 : Nat) < 256 ∧
    calibModeValue "abcd" 1 = specCalibValue "abcd" (format02x 1) ∧
    calibDurationValue "abcd" 1000 = specCalibValue "abcd" (leBytes4Hex 1000) :=
  ⟨by norm_num, by norm_num,
    (frames_match_spec_templates "abcd" tokenA 1 50 1000 (by norm_num)
      (by norm_num)).2.2.2.2.2.2.2.2.2.2.2.2.2.1,
    (frames_match_spec_templates "abcd" tokenA 1 50 1000 (by norm_num)
      (by norm_num)).2.2.2.2.2.2.2.2.2.2.2.2.2.2.2⟩

theorem aux_disconnectOp_trace_congr (s t : Session) (hc : s.client = t.client)
    (ht : s.trace = t.trace) :
    (disconnectOp s).trace = (disconnectOp t).trace := by
  unfold disconnectOp
  by_cases h : t.client = true
  · simp [hc, ht, h]
  · simp [hc, ht, h]

/-- C7: `calibrate(depth=50, duration=1000, mode="invert")` on a connected
session writes exactly three header/value frame pairs, in the order mode,
depth, duration, with the mode byte encoded as `01`, the depth byte as `32`,
and the duration as the little-endian bytes `e8 03 00 00`. -/
theorem calibrate_invert_50_1000 (id : String) :
    (calibrate trOk sConn "9999" id 50 1000 "invert").trace =
      [Ev.write (calibModeHeader id) true true,
       Ev.write (calibModeValue id 1) true true,
       Ev.write (calibDepthHeader id) true true,
       Ev.write (calibDepthValue id 50) true true,
       Ev.write (calibDurationHeader id) true true,
       Ev.write (calibDurationValue id 1000) true true] ∧
    format02x 1 = "01" ∧ format02x 50 = "32" ∧
    leBytes4Hex 1000 = "e8030000" := by
  refine ⟨?_, by decide, by decide, by decide⟩
  simp [calibrate, writeSeq, write_gatt_char, calibrateFrames, is_connected,
    setMode, sConn, trOk]

/-- C10: `push_on` and `push_off` put byte-for-byte identical frame sequences
on the wire (given the same transaction ids): the header and value frames
coincide and the whole transport event trace is identical from any state; the
on/off distinction lives only in the optimistic `is_on` field. -/
theorem push_on_off_same_wire (tr : Transport) (s : Session)
    (idc idp : String) :
    pushOffHeader idp = pushOnHeader idp ∧
    pushOffValue idp = pushOnValue idp ∧
    (push_off tr s idc idp).trace = (push_on tr s idc idp).trace := by
  refine ⟨rfl, rfl, ?_⟩
  simp only [push_off, push_on,
    show pushOffHeader idp = pushOnHeader idp from rfl,
    show pushOffValue idp = pushOnValue idp from rfl]
  by_cases hw1 : (write_gatt_char tr
      (if is_connected s = true then s else connect tr s false idc)
      (pushOnHeader idp)).2 = true
  · by_cases hw2 : (write_gatt_char tr
        (write_gatt_char tr
          (if is_connected s = true then s else connect tr s false idc)
          (pushOnHeader idp)).1 (pushOnValue idp)).2 = true
    · simp only [hw1, hw2, if_true]
      exact aux_disconnectOp_trace_congr _ _ rfl rfl
    · rw [Bool.not_eq_true] at hw2
      simp only [hw1, hw2, if_true, Bool.false_eq_true, if_false]
      exact aux_disconnectOp_trace_congr _ _ rfl rfl
  · rw [Bool.not_eq_true] at hw1
    simp only [hw1, Bool.false_eq_true, if_false]
    exact aux_disconnectOp_trace_congr _ _ rfl rfl

theorem aux_classify_cases (data : List Nat) :
    classify data = Notif.unrecognized ∨
    (∃ b, classify data = Notif.deviceAck b) ∨
    (∃ t, classify data = Notif.tokenDelivery t) := by
  cases h : classify data with
  | deviceAck b => exact Or.inr (Or.inl ⟨b, rfl⟩)
  | tokenDelivery t => exact Or.inr (Or.inr ⟨t, rfl⟩)
  | unrecognized => exact Or.inl rfl

theorem aux_classify_short (data : List Nat) (h : data.length < 5) :
    classify data = Notif.unrecognized := by
  have hlen : (((b2a_hex data).drop 4).take 36).length ≤ 4 := by
    rw [List.length_take, List.length_drop, b2a_hex_length]
    omega
  have hc1 : ¬ ((((b2a_hex data).drop 4).take 36).take 6 = "0f0101".toList ∨
      (((b2a_hex data).drop 4).take 36).take 6 = "0f0102".toList) := by
    rintro (h1 | h1)
    · have h1l := congrArg List.length h1
      rw [List.length_take, show ("0f0101".toList).length = 6 from rfl] at h1l
      omega
    · have h1l := congrArg List.length h1
      rw [List.length_take, show ("0f0102".toList).length = 6 from rfl] at h1l
      omega
  have hc2 : ¬ ((((b2a_hex data).drop 4).take 36).take 4 = "1fff".toList ∧
      ((((b2a_hex data).drop 4).take 36).drop 6).take 22 ≠ zeros 22 ∧
      ((((b2a_hex data).drop 4).take 36).drop 28).take 8 = zeros 8) := by
    rintro ⟨-, -, h3⟩
    have h3l := congrArg List.length h3
    rw [List.length_take, List.length_drop,
        show (zeros 8).length = 8 from rfl] at h3l
    omega
  simp only [classify]
  rw [if_neg hc1, if_neg hc2]

theorem aux_handler_unrec (tr : Transport) (s : Session) (id : String)
    (data : List Nat) (h : classify data = Notif.unrecognized) :
    notification_handler tr s id data = s := by
  unfold notification_handler
  rw [h]

/-- C4: decoding is total and safe: every payload classifies as exactly one
of device-ack, token-delivery or unrecognized (the decode step never
raises); any payload shorter than the 5-byte minimum recognizable length is
unrecognized; and an unrecognized payload causes no state transition. -/
theorem decode_total_and_safe (tr : Transport) (s : Session) (id : String)
    (data : List Nat) :
    (classify data = Notif.unrecognized ∨
      (∃ b, classify data = Notif.deviceAck b) ∨
      (∃ t, classify data = Notif.tokenDelivery t)) ∧
    (data.length < 5 → classify data = Notif.unrecognized) ∧
    (classify data = Notif.unrecognized →
      notification_handler tr s id data = s) :=
  ⟨aux_classify_cases data, aux_classify_short data,
    aux_handler_unrec tr s id data⟩

/-- C4 witness: a concrete 2-byte payload is unrecognized and leaves the
session untouched. -/
theorem decode_total_and_safe_witness :
    classify [1, 2] = Notif.unrecognized ∧
    notification_handler trOk sConn "aaaa" [1, 2] = sConn :=
  ⟨(decode_total_and_safe trOk sConn "aaaa" [1, 2]).2.1 (by decide),
    (decode_total_and_safe trOk sConn "aaaa" [1, 2]).2.2
      ((decode_total_and_safe trOk sConn "aaaa" [1, 2]).2.1 (by decide))⟩

theorem aux_classify_token (data : List Nat) (tok : List Char)
    (h : classify data = Notif.tokenDelivery tok) :
    tok = ((b2a_hex data).drop 8).take 32 ∧ tok.length = 32 := by
  simp only [classify] at h
  split at h
  · exact absurd h (by simp)
  · split at h
    next hg =>
      injection h with h'
      have hlen36 : 36 ≤ (((b2a_hex data).drop 4).take 36).length := by
        have h3l := congrArg List.length hg.2.2
        rw [List.length_take, List.length_drop,
            show (zeros 8).length = 8 from rfl] at h3l
        omega
      have e1 : ((((b2a_hex data).drop 4).take 36).drop 4).take 32
          = ((b2a_hex data).drop 8).take 32 := by
        rw [show (36 : Nat) = 4 + 32 from rfl, ← List.take_drop,
            List.take_take, List.drop_drop]
        norm_num
      refine ⟨h'.symm.trans e1, ?_⟩
      rw [← h', List.length_take, List.length_drop]
      omega
    next => exact absurd h (by simp)

/-- C2 (amended): every token-delivery notification carries a 32-hex-char
token at offset 4 of the stripped window (bytes 8.. of the full hex dump);
the handler stores it in the token-callback field (surfaced by the `token`
property) and unsubscribes, while `self._token` — the value embedded in
subsequent set-token frames — is left unchanged. -/
theorem token_delivery_stores_callback (tr : Transport) (s : Session)
    (id : String) (data : List Nat) (tok : List Char)
    (h : classify data = Notif.tokenDelivery tok) :
    tok = ((b2a_hex data).drop 8).take 32 ∧ tok.length = 32 ∧
    notification_handler tr s id data =
      { s with tokenCallback := some (String.mk tok),
               trace := s.trace ++ [Ev.stopNotify] } ∧
    (notification_handler tr s id data).token = s.token := by
  have hh : notification_handler tr s id data =
      { s with tokenCallback := some (String.mk tok),
               trace := s.trace ++ [Ev.stopNotify] } := by
    unfold notification_handler
    rw [h]
  exact ⟨(aux_classify_token data tok h).1, (aux_classify_token data tok h).2,
    hh, by rw [hh]⟩

/-- C2 witness: the concrete delivery payload `data0` stores its embedded
token in the callback field and leaves the session token unchanged. -/
theorem token_delivery_stores_callback_witness :
    "bbbbbbbbbbbbbbbbbbbbbbbb00000000".toList =
      ((b2a_hex data0).drop 8).take 32 ∧
    ("bbbbbbbbbbbbbbbbbbbbbbbb00000000".toList).length = 32 ∧
    notification_handler trOk sConn "cccc" data0 =
      { sConn with
        tokenCallback := some (String.mk "bbbbbbbbbbbbbbbbbbbbbbbb00000000".toList),
        trace := sConn.trace ++ [Ev.stopNotify] } ∧
    (notification_handler trOk sConn "cccc" data0).token = sConn.token :=
  token_delivery_stores_callback trOk sConn "cccc" data0
    "bbbbbbbbbbbbbbbbbbbbbbbb00000000".toList (by decide)

/-- C2 counterexample: the delivered token is NOT the token the session
subsequently uses for set-token writes — after handling `data0` the
set-token value frame still embeds the constructor-supplied `tokenA`, not
the delivered token. -/
theorem token_delivery_not_used_for_set_token :
    (notification_handler trOk sConn "cccc" data0).tokenCallback =
      some "bbbbbbbbbbbbbbbbbbbbbbbb00000000" ∧
    setTokenValue "dddd" (notification_handler trOk sConn "cccc" data0).token =
      setTokenValue "dddd" tokenA ∧
    setTokenValue "dddd" (notification_handler trOk sConn "cccc" data0).token ≠
      setTokenValue "dddd" "bbbbbbbbbbbbbbbbbbbbbbbb00000000" :=
  ⟨by decide, by decide, by decide⟩

theorem connect_once (tr : Transport) (s : Session) (init : Bool)
    (id : String) :
    connect tr s init id = setToken tr (do_connect tr s) init id := by
  unfold connect
  rw [connectLoop]
  rfl

theorem aux_connect_connected (tr : Transport) (s : Session) (id : String)
    (h : is_connected s = true) :
    connect tr s false id = setTokenOp tr s id := by
  rw [connect_once]
  have hd : do_connect tr s = s := by
    unfold do_connect
    rw [if_pos h]
  rw [hd]
  rfl

theorem aux_connect_fail (tr : Transport) (s : Session) (id : String)
    (h1 : s.client = false) (h2 : tr.connectOk = false) :
    connect tr s false id =
      { s with trace := s.trace ++ [Ev.connectAttempt false,
          Ev.write (setTokenHeader id) false false] } := by
  rw [connect_once]
  have hic : is_connected s = false := by
    unfold is_connected
    rw [h1]
    rfl
  have hd : do_connect tr s =
      { s with trace := s.trace ++ [Ev.connectAttempt false] } := by
    unfold do_connect
    rw [hic, h2]
    simp
  rw [hd]
  show setToken tr _ false id = _
  unfold setToken setTokenOp write_gatt_char
  simp [h1, is_connected]

theorem aux_setTokenOp_success (tr : Transport) (s : Session) (id : String)
    (hc : s.client = true) (hcn : s.connected = true)
    (hw1 : tr.writeOk s.writeCount = true)
    (hw2 : tr.writeOk (s.writeCount + 1) = true) :
    setTokenOp tr s id =
      { s with writeCount := s.writeCount + 1 + 1,
               trace := s.trace ++ [Ev.write (setTokenHeader id) true true,
                 Ev.write (setTokenValue id s.token) true true] } := by
  unfold setTokenOp write_gatt_char
  simp [hc, hcn, hw1, hw2, is_connected]

theorem aux_write_fails (tr : Transport) (hw : ∀ n, tr.writeOk n = false)
    (s : Session) (f : String) : (write_gatt_char tr s f).2 = false := by
  unfold write_gatt_char
  split <;> simp [hw]

theorem aux_disconnectOp_isOn (s : Session) :
    (disconnectOp s).isOn = s.isOn := by
  unfold disconnectOp
  split <;> rfl

theorem aux_write_isOn (tr : Transport) (s : Session) (f : String) :
    (write_gatt_char tr s f).1.isOn = s.isOn := by
  unfold write_gatt_char
  split <;> rfl

theorem aux_writeSeq_isOn (tr : Transport) (fs : List String) (s : Session) :
    (writeSeq tr s fs).isOn = s.isOn := by
  induction fs generalizing s with
  | nil => rfl
  | cons f fs ih =>
    simp only [writeSeq]
    split
    · rw [ih, aux_write_isOn]
    · rw [aux_write_isOn]

theorem aux_setTokenOp_isOn (tr : Transport) (s : Session) (id : String) :
    (setTokenOp tr s id).isOn = s.isOn := by
  simp only [setTokenOp]
  split
  · rw [aux_write_isOn, aux_write_isOn]
  · rw [aux_write_isOn]

theorem aux_initTokenOp_isOn (tr : Transport) (s : Session) (id : String) :
    (initTokenOp tr s id).isOn = s.isOn := by
  simp only [initTokenOp]
  split
  · split
    · rw [aux_write_isOn, aux_write_isOn]
    · rw [aux_write_isOn]
  · rfl

theorem aux_setToken_isOn (tr : Transport) (s : Session) (init : Bool)
    (id : String) : (setToken tr s init id).isOn = s.isOn := by
  unfold setToken
  cases init with
  | true => simp [aux_initTokenOp_isOn]
  | false => simp [aux_setTokenOp_isOn]

theorem aux_do_connect_isOn (tr : Transport) (s : Session) :
    (do_connect tr s).isOn = s.isOn := by
  unfold do_connect
  split
  · rfl
  · split <;> rfl

theorem aux_connect_isOn (tr : Transport) (s : Session) (init : Bool)
    (id : String) : (connect tr s init id).isOn = s.isOn := by
  rw [connect_once, aux_setToken_isOn, aux_do_connect_isOn]

theorem aux_calibrate_isOn (tr : Transport) (s : Session) (idc id : String)
    (d du : Nat) (m : String) :
    (calibrate tr s idc id d du m).isOn = s.isOn := by
  simp only [calibrate]
  rw [aux_writeSeq_isOn]
  by_cases h : is_connected s = true
  · simp [h]
  · simp [h, aux_connect_isOn]

/-- C1 (corrected): `connect(init=False)` on an already-connected session
makes no transport connect attempt, but it does not return before writing:
it unconditionally runs the set-token handshake, writing the set-token
header and value frames (two transport writes). -/
theorem connect_connected_writes_set_token (tr : Transport) (s : Session)
    (id : String) (h : is_connected s = true)
    (hw1 : tr.writeOk s.writeCount = true)
    (hw2 : tr.writeOk (s.writeCount + 1) = true) :
    connect tr s false id = setTokenOp tr s id ∧
    (connect tr s false id).trace =
      s.trace ++ [Ev.write (setTokenHeader id) true true,
        Ev.write (setTokenValue id s.token) true true] ∧
    numAttempts ((connect tr s false id).trace) = numAttempts s.trace := by
  have hb : s.client = true ∧ s.connected = true := by
    unfold is_connected at h
    exact Bool.and_eq_true_iff.mp h
  have hc : s.client = true := hb.1
  have hcn : s.connected = true := hb.2
  have he := aux_connect_connected tr s id h
  have hs := aux_setTokenOp_success tr s id hc hcn hw1 hw2
  refine ⟨he, ?_, ?_⟩
  · rw [he, hs]
  · rw [he, hs]
    simp [numAttempts, List.countP_append, List.countP_cons, List.countP_nil]

/-- C1 witness: concrete already-connected run. -/
theorem connect_connected_writes_set_token_witness :
    connect trOk sConn false "abcd" = setTokenOp trOk sConn "abcd" ∧
    (connect trOk sConn false "abcd").trace =
      sConn.trace ++ [Ev.write (setTokenHeader "abcd") true true,
        Ev.write (setTokenValue "abcd" sConn.token) true true] ∧
    numAttempts ((connect trOk sConn false "abcd").trace) =
      numAttempts sConn.trace :=
  connect_connected_writes_set_token trOk sConn "abcd" rfl rfl rfl

/-- C1 counterexample: while already connected, `connect(init=False)`
performs two transport writes, not zero (the set-token frames ARE
written). -/
theorem connect_connected_not_zero_writes :
    numWrites ((connect trOk sConn false "abcd").trace) = 2 ∧
    numWrites ((connect trOk sConn false "abcd").trace) ≠ 0 :=
  ⟨by decide, by decide⟩

/-- C5: with a transport on which every write fails, `push_on` ends with
`is_on = False` and `push_off` ends with `is_on = True` (the complement of
the intended effect). -/
theorem push_failure_sets_complement (tr : Transport) (s : Session)
    (idc idp : String) (hw : ∀ n, tr.writeOk n = false) :
    (push_on tr s idc idp).isOn = some false ∧
    (push_off tr s idc idp).isOn = some true := by
  constructor
  · simp [push_on, aux_write_fails tr hw, aux_disconnectOp_isOn]
  · simp [push_off, aux_write_fails tr hw, aux_disconnectOp_isOn]

/-- C5 witness: concrete failing-write run from a connected session. -/
theorem push_failure_sets_complement_witness :
    (push_on trWriteFail sConn "aaaa" "bbbb").isOn = some false ∧
    (push_off trWriteFail sConn "aaaa" "bbbb").isOn = some true :=
  push_failure_sets_complement trWriteFail sConn "aaaa" "bbbb" (fun _ => rfl)

/-- C6 counterexample: a failed `push_on` write sets ActuatorState to off
(`some false`), not to the unknown value (`none`); a failed `push_off` sets
it to on. -/
theorem push_failure_not_unknown :
    (push_on trWriteFail sConn "cccc" "dddd").isOn = some false ∧
    (push_on trWriteFail sConn "cccc" "dddd").isOn ≠ none ∧
    (push_off trWriteFail sConn "cccc" "dddd").isOn = some true :=
  ⟨by decide, by decide, by decide⟩

/-- C6 (amended): on write failure the push commands set ActuatorState to
the complement of the intended effect — never to unknown — and a failing
`calibrate` leaves ActuatorState unchanged (it never touches `is_on`). -/
theorem write_failure_state_effects (tr : Transport) (s : Session)
    (idc idk : String) (d du : Nat) (m : String)
    (hw : ∀ n, tr.writeOk n = false) :
    (push_on tr s idc idk).isOn = some false ∧
    (push_on tr s idc idk).isOn ≠ none ∧
    (push_off tr s idc idk).isOn = some true ∧
    (calibrate tr s idc idk d du m).isOn = s.isOn := by
  refine ⟨?_, ?_, ?_, aux_calibrate_isOn tr s idc idk d du m⟩
  · simp [push_on, aux_write_fails tr hw, aux_disconnectOp_isOn]
  · simp [push_on, aux_write_fails tr hw, aux_disconnectOp_isOn]
  · simp [push_off, aux_write_fails tr hw, aux_disconnectOp_isOn]

/-- C6 witness: concrete failing-write runs. -/
theorem write_failure_state_effects_witness :
    (push_on trWriteFail sConn "eeee" "ffff").isOn = some false ∧
    (push_on trWriteFail sConn "eeee" "ffff").isOn ≠ none ∧
    (push_off trWriteFail sConn "eeee" "ffff").isOn = some true ∧
    (calibrate trWriteFail sConn "eeee" "ffff" 1 2 "normal").isOn =
      sConn.isOn :=
  write_failure_state_effects trWriteFail sConn "eeee" "ffff" 1 2 "normal"
    (fun _ => rfl)

/-- C8 (corrected): against a transport whose connect always fails, a fresh
`connect()` makes exactly one connection attempt and no 500 ms backoff
sleep, and returns normally: the retry loop never retries because
`_do_connect` and `__setToken` catch every exception internally, so no
exception ever reaches the loop's except branch. -/
theorem connect_fail_single_attempt (tr : Transport) (s : Session)
    (id : String) (h1 : s.client = false) (h2 : tr.connectOk = false) :
    connect tr s false id =
      { s with trace := s.trace ++ [Ev.connectAttempt false,
          Ev.write (setTokenHeader id) false false] } ∧
    numAttempts ((connect tr s false id).trace) = numAttempts s.trace + 1 ∧
    numSleeps ((connect tr s false id).trace) = numSleeps s.trace := by
  have h := aux_connect_fail tr s id h1 h2
  refine ⟨h, ?_, ?_⟩ <;> rw [h] <;>
    simp [numAttempts, numSleeps, List.countP_append, List.countP_cons,
      List.countP_nil]

/-- C8 witness: concrete always-failing run. -/
theorem connect_fail_single_attempt_witness :
    connect trFail sFresh false "abcd" =
      { sFresh with trace := sFresh.trace ++ [Ev.connectAttempt false,
          Ev.write (setTokenHeader "abcd") false false] } ∧
    numAttempts ((connect trFail sFresh false "abcd").trace) =
      numAttempts sFresh.trace + 1 ∧
    numSleeps ((connect trFail sFresh false "abcd").trace) =
      numSleeps sFresh.trace :=
  connect_fail_single_attempt trFail sFresh "abcd" rfl rfl

/-- C8 counterexample: against the always-failing transport the trace shows
exactly one connection attempt, not five, and zero backoff sleeps. -/
theorem connect_fail_not_five_attempts :
    numAttempts ((connect trFail sFresh false "abcd").trace) = 1 ∧
    numAttempts ((connect trFail sFresh false "abcd").trace) ≠ 5 ∧
    numSleeps ((connect trFail sFresh false "abcd").trace) = 0 :=
  ⟨by decide, by decide, by decide⟩

/-- C9 (corrected): `push_on` connects first when not connected, but never
verifies success: when the connect fails, the command frame write is still
attempted while the connection handle is not connected (the write fails, is
caught, and leaves `is_on = False`). -/
theorem push_write_attempted_when_disconnected (tr : Transport) (s : Session)
    (idc idp : String) (h1 : s.client = false) (h2 : tr.connectOk = false) :
    Ev.write (pushOnHeader idp) false false ∈ (push_on tr s idc idp).trace ∧
    (push_on tr s idc idp).isOn = some false := by
  have hic : is_connected s = false := by
    unfold is_connected
    rw [h1]
    rfl
  have hcf := aux_connect_fail tr s idc h1 h2
  simp only [push_on, hic, Bool.false_eq_true, if_false, hcf]
  unfold write_gatt_char disconnectOp
  simp [h1, is_connected, List.mem_append]

/-- C9 witness: concrete run with a fresh session and failing transport. -/
theorem push_write_attempted_when_disconnected_witness :
    Ev.write (pushOnHeader "ffff") false false ∈
      (push_on trFail sFresh "eeee" "ffff").trace ∧
    (push_on trFail sFresh "eeee" "ffff").isOn = some false :=
  push_write_attempted_when_disconnected trFail sFresh "eeee" "ffff" rfl rfl

/-- C9 counterexample: a concrete execution in which a push command frame
write happens while the connection handle is not connected. -/
theorem push_write_disconnected_concrete :
    Ev.write (pushOnHeader "bbbb") false false ∈
      (push_on trFail sFresh "aaaa" "bbbb").trace := by decide

end MicroBot
